import Mathlib

/-!
Shallow embedding of `request-decompressor` (`src/decompressor.go`), a Caddy
middleware that decompresses HTTP request bodies based on the
`Content-Encoding` header, maintains decompression metrics, and forwards the
request to the next handler.

Bytes are modelled as `List Nat`; Go `int64` counters as `Int` (no increment
in the program can overflow starting from the zero-initialised metrics, so
wraparound is not modelled); the `float64` field `DecompressionTimings` is
carried by `Int` since the program never performs any floating-point
arithmetic on it (it is only ever zero-initialised, never written).

The external compression libraries (`compress/gzip`, `compress/bzip2`,
`klauspost/compress/zstd`) are not part of this repository; `ServeHTTP` is
parameterised over an abstract `Codecs` record describing their observable
behaviour (construction may fail for gzip/zstd; draining via `io.ReadAll`
returns the bytes read so far together with an optional error).
-/

/-- An HTTP body stream, as observed through `io.ReadAll`: either all bytes
are produced, or reading fails with an error message (in which case Go's
`io.ReadAll` semantics are summarised by the error alone, since the program
discards the partial bytes on the body-read-error path). -/
structure Body where
  bytes : List Nat
  readErr : Option String
deriving DecidableEq, Repr

/-- Embeds `io.ReadAll(r.Body)`: produces the bytes or the read error. -/
def readAll (b : Body) : Except String (List Nat) :=
  match b.readErr with
  | some e => Except.error e
  | none => Except.ok b.bytes

/-- A header map, modelled as an association list from header name to value.
All accesses in the program use the single literal key `Content-Encoding`,
so Go's key canonicalisation is not modelled. -/
def Header := List (String × String)

instance : DecidableEq Header := inferInstanceAs (DecidableEq (List (String × String)))

instance : Repr Header := inferInstanceAs (Repr (List (String × String)))

/-- Embeds `unicode.ToLower` applied to one character, restricted to ASCII (every
encoding token the program compares against is ASCII). -/
def lowerChar (c : Char) : Char :=
  if 65 ≤ c.toNat ∧ c.toNat ≤ 90 then Char.ofNat (c.toNat + 32) else c

/-- Embeds `strings.ToLower`, restricted to ASCII input. -/
def strToLower (s : String) : String := ⟨s.data.map lowerChar⟩

/-- Embeds `http.Header.Get`: first value for the key, or `""` when absent. -/
def headerGet (h : Header) (key : String) : String :=
  match List.lookup key h with
  | some v => v
  | none => ""

/-- Embeds `http.Header.Del`: remove every entry for the key. -/
def headerDel (h : Header) (key : String) : Header :=
  List.filter (fun p => p.1 ≠ key) h

/-- An `*http.Request`, restricted to the fields the middleware touches:
the header map, the body stream, and `ContentLength`. -/
structure Request where
  header : Header
  body : Body
  contentLength : Int
deriving DecidableEq, Repr

/-- Embeds `DecompressionMetrics` from `decompressor.go`.  `DecompressionTimings`
is a `float64` in Go; it only ever holds its zero value (no code path writes
it), so an exact carrier is used. -/
structure DecompressionMetrics where
  TotalRequests : Int
  SuccessfulRequests : Int
  FailedRequests : Int
  DecompressionTimings : Int
  RequestsByCompression : List (String × Int)
deriving DecidableEq, Repr

/-- The metrics object built by `Provision`: the struct literal
`&DecompressionMetrics{RequestsByCompression: make(map[string]*int64)}`
zero-initialises every other field. -/
def provisionMetrics : DecompressionMetrics :=
  { TotalRequests := 0
    SuccessfulRequests := 0
    FailedRequests := 0
    DecompressionTimings := 0
    RequestsByCompression := [] }

/-- The lazy-insert-then-increment on `RequestsByCompression`:
`if _, exists := m[enc]; !exists { m[enc] = new(int64) }` followed by
`atomic.AddInt64(m[enc], 1)` (sequential semantics). -/
def mapIncr : List (String × Int) → String → List (String × Int)
  | [], k => [(k, 1)]
  | (a, v) :: t, k => if a = k then (a, v + 1) :: t else (a, v) :: mapIncr t k

/-- Observable behaviour of the external decompression libraries, as the
program uses them: the reader is constructed over the buffered body and
immediately drained with `io.ReadAll`, which returns the bytes read so far
and an optional error.
* `gzipNew`: `gzip.NewReader` may fail at construction (malformed header);
  on success the pair is the result of draining the reader.
* `bz2Read`: `bzip2.NewReader` cannot fail at construction; the pair is the
  result of draining.
* `zstdNew`: `zstd.NewReader` may fail at construction; on success the pair
  is the result of draining. -/
structure Codecs where
  gzipNew : List Nat → Except String (List Nat × Option String)
  bz2Read : List Nat → List Nat × Option String
  zstdNew : List Nat → Except String (List Nat × Option String)

/-- What `ServeHTTP` does with the request chain: either the downstream
handler `next` is invoked (with the final request state) and its outcome
returned, or a `caddyhttp.Error(status, err)` is returned without invoking
`next`. -/
inductive Outcome where
  | next
  | httpError (status : Nat) (msg : String)
deriving DecidableEq, Repr

/-- Result of one `ServeHTTP` invocation: the final metrics, the final state
of the (in-place mutated) request object, and the outcome. -/
structure ServeResult where
  metrics : DecompressionMetrics
  request : Request
  outcome : Outcome
deriving DecidableEq, Repr

/-- The code after the `switch` statement: `if err != nil` (failure: bump
`FailedRequests`, return 400) else the success epilogue (bump
`SuccessfulRequests`, replace `r.Body` with a fresh reader over
`decompressed`, delete the `Content-Encoding` header, set `r.ContentLength`
to `int64(len(decompressed))`, invoke `next`).  `err` here is the OUTER
`err` variable of `ServeHTTP`; which value reaches this check depends on
the `case` taken (see `ServeHTTP`). -/
def afterSwitch (m : DecompressionMetrics) (r : Request)
    (decompressed : List Nat) (err : Option String) : ServeResult :=
  match err with
  | some e =>
      { metrics := { m with FailedRequests := m.FailedRequests + 1 }
        request := r
        outcome := Outcome.httpError 400 e }
  | none =>
      { metrics := { m with SuccessfulRequests := m.SuccessfulRequests + 1 }
        request :=
          { r with
            body := { bytes := decompressed, readErr := none }
            header := headerDel r.header "Content-Encoding"
            contentLength := (decompressed.length : Int) }
        outcome := Outcome.next }

/-- Embeds `func (m *Middleware) ServeHTTP(w, r, next) error` from
`src/decompressor.go`, lines 64-124.

Faithful to the Go scoping: in the `"gzip"` and `"zstd"` cases the short
variable declaration `reader, err := ...` / `decoder, err := ...` declares a
NEW `err` inside the case block, shadowing the outer `err`; the subsequent
`decompressed, err = io.ReadAll(...)` assigns that inner `err`, so the
post-switch `if err != nil` check reads the outer `err`, which is still
`nil` there (the body read succeeded) — drain errors in those two cases are
dropped, and `decompressed` holds whatever partial bytes `io.ReadAll`
returned.  In the `"bz2"` case only `reader :=` is declared, so
`decompressed, err = io.ReadAll(reader)` assigns the OUTER `err` and the
post-switch check sees the drain error. -/
def ServeHTTP (C : Codecs) (m : DecompressionMetrics) (r : Request) : ServeResult :=
  if headerGet r.header "Content-Encoding" = "" then
    { metrics := m, request := r, outcome := Outcome.next }
  else
    let m1 := { m with TotalRequests := m.TotalRequests + 1 }
    let encoding := strToLower (headerGet r.header "Content-Encoding")
    let m2 := { m1 with
      RequestsByCompression := mapIncr m1.RequestsByCompression encoding }
    match readAll r.body with
    | Except.error e =>
        { metrics := { m2 with FailedRequests := m2.FailedRequests + 1 }
          request := r
          outcome := Outcome.httpError 400 e }
    | Except.ok body =>
        match encoding with
        | "gzip" =>
            match C.gzipNew body with
            | Except.error e =>
                { metrics := { m2 with FailedRequests := m2.FailedRequests + 1 }
                  request := r
                  outcome := Outcome.httpError 400 e }
            | Except.ok (decompressed, _innerErr) =>
                -- the drain error went into the shadowed inner err;
                -- the outer err is still nil at the post-switch check
                afterSwitch m2 r decompressed none
        | "bz2" =>
            match C.bz2Read body with
            | (decompressed, err) => afterSwitch m2 r decompressed err
        | "zstd" =>
            match C.zstdNew body with
            | Except.error e =>
                { metrics := { m2 with FailedRequests := m2.FailedRequests + 1 }
                  request := r
                  outcome := Outcome.httpError 400 e }
            | Except.ok (decompressed, _innerErr) =>
                -- same shadowing as the gzip case
                afterSwitch m2 r decompressed none
        | _ =>
            { metrics := { m2 with FailedRequests := m2.FailedRequests + 1 }
              request := r
              outcome := Outcome.httpError 400
                ("unsupported Content-Encoding: " ++ encoding) }

/-- Modelled from the spec: a concrete stand-in for the external gzip
library, used only to instantiate `Codecs` in closed witnesses.  The encoded
form is a two-byte magic header, the payload length, then the payload;
construction rejects a malformed header, and a payload shorter than its
declared length drains with an error after yielding the partial bytes
(truncated stream). -/
def modelGzipEncode (x : List Nat) : List Nat :=
  31 :: 139 :: x.length :: x

/-- Modelled from the spec: decoding side of `modelGzipEncode`. -/
def modelGzipNew : List Nat → Except String (List Nat × Option String)
  | 31 :: 139 :: n :: rest =>
      if rest.length < n then Except.ok (rest, some "gzip: unexpected EOF")
      else Except.ok (rest.take n, none)
  | _ => Except.error "gzip: invalid header"

/-- Modelled from the spec: a concrete stand-in for the external bzip2
library.  Construction never fails; malformed or truncated data surfaces
only while draining. -/
def modelBz2Encode (x : List Nat) : List Nat :=
  66 :: 90 :: x.length :: x

/-- Modelled from the spec: decoding side of `modelBz2Encode`. -/
def modelBz2Read : List Nat → List Nat × Option String
  | 66 :: 90 :: n :: rest =>
      if rest.length < n then (rest, some "bzip2: unexpected EOF")
      else (rest.take n, none)
  | _ => ([], some "bzip2: invalid data")

/-- Modelled from the spec: a concrete stand-in for the external zstd
library; construction may fail on a malformed header, truncation surfaces
while draining. -/
def modelZstdEncode (x : List Nat) : List Nat :=
  40 :: 181 :: x.length :: x

/-- Modelled from the spec: decoding side of `modelZstdEncode`. -/
def modelZstdNew : List Nat → Except String (List Nat × Option String)
  | 40 :: 181 :: n :: rest =>
      if rest.length < n then Except.ok (rest, some "zstd: unexpected EOF")
      else Except.ok (rest.take n, none)
  | _ => Except.error "zstd: invalid header"

/-- Modelled from the spec: the three external libraries bundled as a
`Codecs` instance for concrete evaluation. -/
def modelCodecs : Codecs :=
  { gzipNew := modelGzipNew, bz2Read := modelBz2Read, zstdNew := modelZstdNew }

/-- Looking up a key in a header from which that key was deleted finds
nothing. -/
lemma lookup_headerDel (h : Header) (k : String) :
    List.lookup k (headerDel h k) = none := by
  induction h with
  | nil => rfl
  | cons p t ih =>
    by_cases hp : p.1 = k
    · simpa [headerDel, hp] using ih
    · have hk : (k == p.1) = false := by
        simp [Ne.symm hp]
      simpa [headerDel, List.lookup, hp, hk] using ih

/-- Behaviour of `ServeHTTP` on the full-success path: non-empty encoding
header, body read succeeds, and the decoder for the (supported) token is
constructed and drained without error. -/
lemma serveHTTP_success_eq (C : Codecs) (m : DecompressionMetrics) (r : Request)
    (body dec : List Nat)
    (hne : headerGet r.header "Content-Encoding" ≠ "")
    (hread : readAll r.body = Except.ok body)
    (hdec : (strToLower (headerGet r.header "Content-Encoding") = "gzip" ∧
               C.gzipNew body = Except.ok (dec, none)) ∨
            (strToLower (headerGet r.header "Content-Encoding") = "bz2" ∧
               C.bz2Read body = (dec, none)) ∨
            (strToLower (headerGet r.header "Content-Encoding") = "zstd" ∧
               C.zstdNew body = Except.ok (dec, none))) :
    ServeHTTP C m r =
      { metrics :=
          { m with
            TotalRequests := m.TotalRequests + 1
            RequestsByCompression := mapIncr m.RequestsByCompression
              (strToLower (headerGet r.header "Content-Encoding"))
            SuccessfulRequests := m.SuccessfulRequests + 1 }
        request :=
          { r with
            body := { bytes := dec, readErr := none }
            header := headerDel r.header "Content-Encoding"
            contentLength := (dec.length : Int) }
        outcome := Outcome.next } := by
  rcases hdec with ⟨he, hg⟩ | ⟨he, hg⟩ | ⟨he, hg⟩ <;>
    simp [ServeHTTP, hne, hread, he, hg, afterSwitch]

/-- Every invocation of `ServeHTTP` has one of three shapes: pass-through
(no encoding header, nothing changes), full success (total and success
counters bumped, request mutated, `next` invoked), or failure (total and
failure counters bumped, request untouched, an HTTP 400 error returned). -/
lemma serveHTTP_shape (C : Codecs) (m : DecompressionMetrics) (r : Request) :
    (ServeHTTP C m r = { metrics := m, request := r, outcome := Outcome.next }) ∨
    (∃ dec : List Nat, ServeHTTP C m r =
      { metrics :=
          { m with
            TotalRequests := m.TotalRequests + 1
            RequestsByCompression := mapIncr m.RequestsByCompression
              (strToLower (headerGet r.header "Content-Encoding"))
            SuccessfulRequests := m.SuccessfulRequests + 1 }
        request :=
          { r with
            body := { bytes := dec, readErr := none }
            header := headerDel r.header "Content-Encoding"
            contentLength := (dec.length : Int) }
        outcome := Outcome.next }) ∨
    (∃ msg : String, ServeHTTP C m r =
      { metrics :=
          { m with
            TotalRequests := m.TotalRequests + 1
            RequestsByCompression := mapIncr m.RequestsByCompression
              (strToLower (headerGet r.header "Content-Encoding"))
            FailedRequests := m.FailedRequests + 1 }
        request := r
        outcome := Outcome.httpError 400 msg }) := by
  by_cases h0 : headerGet r.header "Content-Encoding" = ""
  · left
    simp [ServeHTTP, h0]
  · right
    cases hread : readAll r.body with
    | error e =>
        right
        exact ⟨e, by simp [ServeHTTP, h0, hread]⟩
    | ok body =>
        by_cases h1 : strToLower (headerGet r.header "Content-Encoding") = "gzip"
        · cases hg : C.gzipNew body with
          | error e =>
              right
              exact ⟨e, by simp [ServeHTTP, h0, hread, h1, hg]⟩
          | ok p =>
              obtain ⟨dec, ierr⟩ := p
              left
              exact ⟨dec, by simp [ServeHTTP, h0, hread, h1, hg, afterSwitch]⟩
        · by_cases h2 : strToLower (headerGet r.header "Content-Encoding") = "bz2"
          · rcases hb : C.bz2Read body with ⟨dec, err⟩
            cases err with
            | none =>
                left
                exact ⟨dec, by simp [ServeHTTP, h0, hread, h2, hb, afterSwitch]⟩
            | some e =>
                right
                exact ⟨e, by simp [ServeHTTP, h0, hread, h2, hb, afterSwitch]⟩
          · by_cases h3 : strToLower (headerGet r.header "Content-Encoding") = "zstd"
            · cases hz : C.zstdNew body with
              | error e =>
                  right
                  exact ⟨e, by simp [ServeHTTP, h0, hread, h3, hz]⟩
              | ok p =>
                  obtain ⟨dec, ierr⟩ := p
                  left
                  exact ⟨dec, by simp [ServeHTTP, h0, hread, h3, hz, afterSwitch]⟩
            · right
              refine ⟨"unsupported Content-Encoding: " ++
                strToLower (headerGet r.header "Content-Encoding"), ?_⟩
              simp only [ServeHTTP, if_neg h0, hread]

/-- C1: for every request whose `Content-Encoding` header holds a supported
token (gzip, bz2 or zstd) and whose body decodes without error, `ServeHTTP`
increments the success counter, replaces the request body with a fresh
reader over the decoded buffer, removes the `Content-Encoding` header, sets
`ContentLength` to the decoded byte count, and invokes `next` with the
mutated request, returning its outcome (it also increments the total
counter and the per-token counter, as the code does). -/
theorem serveHTTP_full_success (C : Codecs) (m : DecompressionMetrics) (r : Request)
    (body dec : List Nat)
    (hne : headerGet r.header "Content-Encoding" ≠ "")
    (hread : readAll r.body = Except.ok body)
    (hdec : (strToLower (headerGet r.header "Content-Encoding") = "gzip" ∧
               C.gzipNew body = Except.ok (dec, none)) ∨
            (strToLower (headerGet r.header "Content-Encoding") = "bz2" ∧
               C.bz2Read body = (dec, none)) ∨
            (strToLower (headerGet r.header "Content-Encoding") = "zstd" ∧
               C.zstdNew body = Except.ok (dec, none))) :
    ServeHTTP C m r =
      { metrics :=
          { m with
            TotalRequests := m.TotalRequests + 1
            RequestsByCompression := mapIncr m.RequestsByCompression
              (strToLower (headerGet r.header "Content-Encoding"))
            SuccessfulRequests := m.SuccessfulRequests + 1 }
        request :=
          { r with
            body := { bytes := dec, readErr := none }
            header := headerDel r.header "Content-Encoding"
            contentLength := (dec.length : Int) }
        outcome := Outcome.next } :=
  serveHTTP_success_eq C m r body dec hne hread hdec

/-- Witness for C1 at a concrete gzip request. -/
theorem serveHTTP_full_success_witness :
    ServeHTTP modelCodecs provisionMetrics
      { header := [("Content-Encoding", "gzip")]
        body := { bytes := [31, 139, 2, 7, 8], readErr := none }
        contentLength := 5 } =
      { metrics := { TotalRequests := 1, SuccessfulRequests := 1, FailedRequests := 0,
                     DecompressionTimings := 0, RequestsByCompression := [("gzip", 1)] }
        request := { header := [], body := { bytes := [7, 8], readErr := none }, contentLength := 2 }
        outcome := Outcome.next } :=
  serveHTTP_full_success modelCodecs provisionMetrics _ [31, 139, 2, 7, 8] [7, 8]
    (by decide) (by rfl) (Or.inl ⟨by rfl, by rfl⟩)

/-- C2: for every plaintext `x` and every supported encoding token, a
request whose body is `x` compressed with that encoding (where the library
decodes its own encoding back to `x`, the round-trip property of the
external codec) is forwarded to `next` with body exactly `x`, no
`Content-Encoding` header afterwards, and `ContentLength` equal to the byte
length of `x`. -/
theorem serveHTTP_round_trip (C : Codecs) (m : DecompressionMetrics) (r : Request)
    (x : List Nat) (e : String) (enc : List Nat → List Nat)
    (hhdr : headerGet r.header "Content-Encoding" = e)
    (hbody : r.body = { bytes := enc x, readErr := none })
    (hdec : (e = "gzip" ∧ C.gzipNew (enc x) = Except.ok (x, none)) ∨
            (e = "bz2" ∧ C.bz2Read (enc x) = (x, none)) ∨
            (e = "zstd" ∧ C.zstdNew (enc x) = Except.ok (x, none))) :
    (ServeHTTP C m r).outcome = Outcome.next ∧
    (ServeHTTP C m r).request.body = { bytes := x, readErr := none } ∧
    List.lookup "Content-Encoding" (ServeHTTP C m r).request.header = none ∧
    (ServeHTTP C m r).request.contentLength = (x.length : Int) := by
  rcases hdec with ⟨he, hg⟩ | ⟨he, hg⟩ | ⟨he, hg⟩ <;> subst he
  · have hres := serveHTTP_success_eq C m r (enc x) x
      (by simp [hhdr]) (by rw [hbody]; rfl) (Or.inl ⟨by rw [hhdr]; rfl, hg⟩)
    rw [hres]
    exact ⟨rfl, rfl, lookup_headerDel r.header _, rfl⟩
  · have hres := serveHTTP_success_eq C m r (enc x) x
      (by simp [hhdr]) (by rw [hbody]; rfl) (Or.inr (Or.inl ⟨by rw [hhdr]; rfl, hg⟩))
    rw [hres]
    exact ⟨rfl, rfl, lookup_headerDel r.header _, rfl⟩
  · have hres := serveHTTP_success_eq C m r (enc x) x
      (by simp [hhdr]) (by rw [hbody]; rfl) (Or.inr (Or.inr ⟨by rw [hhdr]; rfl, hg⟩))
    rw [hres]
    exact ⟨rfl, rfl, lookup_headerDel r.header _, rfl⟩

/-- Witness for C2 at a concrete zstd request. -/
theorem serveHTTP_round_trip_witness :
    (ServeHTTP modelCodecs provisionMetrics
      { header := [("Content-Encoding", "zstd")]
        body := { bytes := modelZstdEncode [5, 6, 7], readErr := none }
        contentLength := 6 }).outcome = Outcome.next ∧
    (ServeHTTP modelCodecs provisionMetrics
      { header := [("Content-Encoding", "zstd")]
        body := { bytes := modelZstdEncode [5, 6, 7], readErr := none }
        contentLength := 6 }).request.body = { bytes := [5, 6, 7], readErr := none } ∧
    List.lookup "Content-Encoding"
      (ServeHTTP modelCodecs provisionMetrics
        { header := [("Content-Encoding", "zstd")]
          body := { bytes := modelZstdEncode [5, 6, 7], readErr := none }
          contentLength := 6 }).request.header = none ∧
    (ServeHTTP modelCodecs provisionMetrics
      { header := [("Content-Encoding", "zstd")]
        body := { bytes := modelZstdEncode [5, 6, 7], readErr := none }
        contentLength := 6 }).request.contentLength = ((3 : Nat) : Int) :=
  serveHTTP_round_trip modelCodecs provisionMetrics _ [5, 6, 7] "zstd" modelZstdEncode
    (by rfl) (by rfl) (Or.inr (Or.inr ⟨rfl, by rfl⟩))

/-- C3: refuted as stated — the code does NOT reject every supported-token
request whose decoder drain fails.  Because of the shadowed `err` in the
`gzip` (and `zstd`) case blocks, a truncated gzip stream (valid header, body
shorter than announced, so draining fails with an EOF error) is treated as a
success: the success counter is incremented, the failure counter is not, and
`next` IS invoked with the partial bytes.  This contradicts the code's own
documentation (the README promises 400 for malformed compressed data) and
the post-switch error check's evident intent, so it is a bug in the code. -/
theorem serveHTTP_gzip_drain_error_swallowed :
    modelCodecs.gzipNew [31, 139, 5] = Except.ok ([], some "gzip: unexpected EOF") ∧
    ServeHTTP modelCodecs provisionMetrics
      { header := [("Content-Encoding", "gzip")]
        body := { bytes := [31, 139, 5], readErr := none }
        contentLength := 3 } =
      { metrics := { TotalRequests := 1, SuccessfulRequests := 1, FailedRequests := 0,
                     DecompressionTimings := 0, RequestsByCompression := [("gzip", 1)] }
        request := { header := [], body := { bytes := [], readErr := none }, contentLength := 0 }
        outcome := Outcome.next } :=
  ⟨by rfl, by rfl⟩

/-- C4: a request with no (or an empty) `Content-Encoding` header is passed
to `next` immediately, completely unmodified, and no metrics field
changes. -/
theorem serveHTTP_no_encoding_passthrough (C : Codecs) (m : DecompressionMetrics)
    (r : Request) (h : headerGet r.header "Content-Encoding" = "") :
    ServeHTTP C m r = { metrics := m, request := r, outcome := Outcome.next } := by
  simp [ServeHTTP, h]

/-- Witness for C4 at a concrete request without the header. -/
theorem serveHTTP_no_encoding_passthrough_witness :
    ServeHTTP modelCodecs provisionMetrics
      { header := [("Content-Type", "application/json")]
        body := { bytes := [1, 2, 3], readErr := none }
        contentLength := 3 } =
      { metrics := provisionMetrics
        request := { header := [("Content-Type", "application/json")]
                     body := { bytes := [1, 2, 3], readErr := none }
                     contentLength := 3 }
        outcome := Outcome.next } :=
  serveHTTP_no_encoding_passthrough modelCodecs provisionMetrics _ (by rfl)

/-- C5, counterexample to the claim as stated: a request with the
unsupported token `deflate` whose body read fails yields an HTTP 400 whose
message is the read error, not `unsupported Content-Encoding: deflate` —
the body is read (and can fail first) before the dispatch on the token. -/
theorem serveHTTP_unsupported_message_counterexample :
    strToLower (headerGet [("Content-Encoding", "deflate")] "Content-Encoding") = "deflate" ∧
    "deflate" ≠ "" ∧ "deflate" ≠ "gzip" ∧ "deflate" ≠ "bz2" ∧ "deflate" ≠ "zstd" ∧
    (ServeHTTP modelCodecs provisionMetrics
      { header := [("Content-Encoding", "deflate")]
        body := { bytes := [1], readErr := some "read failed" }
        contentLength := 1 }).outcome = Outcome.httpError 400 "read failed" ∧
    Outcome.httpError 400 "read failed" ≠
      Outcome.httpError 400 "unsupported Content-Encoding: deflate" :=
  ⟨rfl, by decide, by decide, by decide, by decide, rfl, by decide⟩

/-- C5 as amended: for every request whose body read succeeds and whose
lower-cased `Content-Encoding` token is non-empty and not one of gzip, bz2,
zstd, `ServeHTTP` returns an HTTP 400 error with message
`unsupported Content-Encoding: <token>`, increments the failure counter
(and the total and per-token counters), leaves the request untouched, and
never invokes `next`. -/
theorem serveHTTP_unsupported_token_rejected (C : Codecs) (m : DecompressionMetrics)
    (r : Request) (body : List Nat)
    (hne : headerGet r.header "Content-Encoding" ≠ "")
    (hread : readAll r.body = Except.ok body)
    (h1 : strToLower (headerGet r.header "Content-Encoding") ≠ "gzip")
    (h2 : strToLower (headerGet r.header "Content-Encoding") ≠ "bz2")
    (h3 : strToLower (headerGet r.header "Content-Encoding") ≠ "zstd") :
    ServeHTTP C m r =
      { metrics :=
          { m with
            TotalRequests := m.TotalRequests + 1
            RequestsByCompression := mapIncr m.RequestsByCompression
              (strToLower (headerGet r.header "Content-Encoding"))
            FailedRequests := m.FailedRequests + 1 }
        request := r
        outcome := Outcome.httpError 400
          ("unsupported Content-Encoding: " ++
            strToLower (headerGet r.header "Content-Encoding")) } := by
  simp only [ServeHTTP, if_neg hne, hread]

/-- Witness for the amended C5 at a concrete `deflate` request. -/
theorem serveHTTP_unsupported_token_rejected_witness :
    ServeHTTP modelCodecs provisionMetrics
      { header := [("Content-Encoding", "deflate")]
        body := { bytes := [1, 2], readErr := none }
        contentLength := 2 } =
      { metrics := { TotalRequests := 1, SuccessfulRequests := 0, FailedRequests := 1,
                     DecompressionTimings := 0, RequestsByCompression := [("deflate", 1)] }
        request := { header := [("Content-Encoding", "deflate")]
                     body := { bytes := [1, 2], readErr := none }
                     contentLength := 2 }
        outcome := Outcome.httpError 400 "unsupported Content-Encoding: deflate" } :=
  serveHTTP_unsupported_token_rejected modelCodecs provisionMetrics _ [1, 2]
    (by decide) (by rfl) (by decide) (by decide) (by decide)

/-- C6: every completed (sequential) `ServeHTTP` invocation preserves the
invariant `SuccessfulRequests + FailedRequests = TotalRequests` — each
invocation either touches no counter (no encoding header) or increments the
total counter together with exactly one of the success or failure
counters. -/
theorem serveHTTP_metrics_invariant (C : Codecs) (m : DecompressionMetrics)
    (r : Request)
    (h : m.SuccessfulRequests + m.FailedRequests = m.TotalRequests) :
    (ServeHTTP C m r).metrics.SuccessfulRequests +
      (ServeHTTP C m r).metrics.FailedRequests =
      (ServeHTTP C m r).metrics.TotalRequests := by
  rcases serveHTTP_shape C m r with hs | ⟨dec, hs⟩ | ⟨msg, hs⟩ <;> rw [hs] <;>
    simp <;> omega

/-- Witness for C6 starting from the `Provision` metrics (which satisfy the
invariant) at a concrete gzip request. -/
theorem serveHTTP_metrics_invariant_witness :
    (0 : Int) + 0 = 0 ∧
    (ServeHTTP modelCodecs provisionMetrics
      { header := [("Content-Encoding", "gzip")]
        body := { bytes := [0], readErr := none }
        contentLength := 1 }).metrics.SuccessfulRequests +
      (ServeHTTP modelCodecs provisionMetrics
        { header := [("Content-Encoding", "gzip")]
          body := { bytes := [0], readErr := none }
          contentLength := 1 }).metrics.FailedRequests =
      (ServeHTTP modelCodecs provisionMetrics
        { header := [("Content-Encoding", "gzip")]
          body := { bytes := [0], readErr := none }
          contentLength := 1 }).metrics.TotalRequests :=
  ⟨by decide, serveHTTP_metrics_invariant modelCodecs provisionMetrics _ (by decide)⟩

/-- C7: for a `bz2` request there is no construction-error branch (the
`Codecs` interface gives `bz2Read` no construction failure, mirroring
`bzip2.NewReader`); a malformed bzip2 payload surfaces only while draining,
and a drain error makes `ServeHTTP` return HTTP 400 and increment the
failure counter (this is the one case whose drain error reaches the outer
`err` check). -/
theorem serveHTTP_bz2_drain_error_rejected (C : Codecs) (m : DecompressionMetrics)
    (r : Request) (body dec : List Nat) (e : String)
    (hne : headerGet r.header "Content-Encoding" ≠ "")
    (henc : strToLower (headerGet r.header "Content-Encoding") = "bz2")
    (hread : readAll r.body = Except.ok body)
    (hdrain : C.bz2Read body = (dec, some e)) :
    ServeHTTP C m r =
      { metrics :=
          { m with
            TotalRequests := m.TotalRequests + 1
            RequestsByCompression := mapIncr m.RequestsByCompression "bz2"
            FailedRequests := m.FailedRequests + 1 }
        request := r
        outcome := Outcome.httpError 400 e } := by
  simp [ServeHTTP, if_neg hne, hread, henc, hdrain, afterSwitch]

/-- Witness for C7 at a concrete truncated bz2 request. -/
theorem serveHTTP_bz2_drain_error_rejected_witness :
    ServeHTTP modelCodecs provisionMetrics
      { header := [("Content-Encoding", "bz2")]
        body := { bytes := [66, 90, 5], readErr := none }
        contentLength := 3 } =
      { metrics := { TotalRequests := 1, SuccessfulRequests := 0, FailedRequests := 1,
                     DecompressionTimings := 0, RequestsByCompression := [("bz2", 1)] }
        request := { header := [("Content-Encoding", "bz2")]
                     body := { bytes := [66, 90, 5], readErr := none }
                     contentLength := 3 }
        outcome := Outcome.httpError 400 "bzip2: unexpected EOF" } :=
  serveHTTP_bz2_drain_error_rejected modelCodecs provisionMetrics _ [66, 90, 5] []
    "bzip2: unexpected EOF" (by decide) (by rfl) (by rfl) (by rfl)

/-- C9: no invocation of `ServeHTTP` ever changes the
`DecompressionTimings` metrics field, and `Provision` initialises it to
zero — the advertised decompression-timing metric is never recorded. -/
theorem serveHTTP_timings_unchanged (C : Codecs) (m : DecompressionMetrics)
    (r : Request) :
    (ServeHTTP C m r).metrics.DecompressionTimings = m.DecompressionTimings ∧
    provisionMetrics.DecompressionTimings = 0 := by
  constructor
  · rcases serveHTTP_shape C m r with hs | ⟨dec, hs⟩ | ⟨msg, hs⟩ <;> rw [hs]
  · rfl

/-- Every `ServeHTTP` invocation either invokes `next` or leaves the
request object untouched. -/
lemma serveHTTP_next_or_unchanged (C : Codecs) (m : DecompressionMetrics)
    (r : Request) :
    (ServeHTTP C m r).outcome = Outcome.next ∨ (ServeHTTP C m r).request = r := by
  rcases serveHTTP_shape C m r with hs | ⟨dec, hs⟩ | ⟨msg, hs⟩ <;> rw [hs]
  · left; rfl
  · left; rfl
  · right; rfl

/-- C10: whenever `ServeHTTP` returns an HTTP 400 error, the request's
header map, body field and `ContentLength` are all unchanged — the mutation
(header removal, body replacement, length rewrite) happens only on the
full-success path. -/
theorem serveHTTP_error_request_unmodified (C : Codecs) (m : DecompressionMetrics)
    (r : Request) (s : Nat) (e : String)
    (h : (ServeHTTP C m r).outcome = Outcome.httpError s e) :
    (ServeHTTP C m r).request = r := by
  rcases serveHTTP_next_or_unchanged C m r with hn | hr
  · rw [hn] at h
    exact absurd h (by simp)
  · exact hr

/-- Witness for C10 at a concrete unsupported-token request. -/
theorem serveHTTP_error_request_unmodified_witness :
    (ServeHTTP modelCodecs provisionMetrics
      { header := [("Content-Encoding", "deflate")]
        body := { bytes := [3], readErr := none }
        contentLength := 1 }).outcome =
      Outcome.httpError 400 "unsupported Content-Encoding: deflate" ∧
    (ServeHTTP modelCodecs provisionMetrics
      { header := [("Content-Encoding", "deflate")]
        body := { bytes := [3], readErr := none }
        contentLength := 1 }).request =
      { header := [("Content-Encoding", "deflate")]
        body := { bytes := [3], readErr := none }
        contentLength := 1 } :=
  ⟨by rfl, serveHTTP_error_request_unmodified modelCodecs provisionMetrics _ 400
    "unsupported Content-Encoding: deflate" (by rfl)⟩
